import Mathlib

/-!
Shallow embedding of `vdrplayer2.py` (leamas/vdrplayer2), the OpenCPN VDR log
replay tool, for checking its natural-language specification.

The embedding models:
* `MessageReader.__next__` (the timestamp-paced, protocol-filtered row stream),
* `MsgFormat.format` with its three per-protocol encoders
  (`format_0183`, `format_signalk`, `format_2000`),
* the transport send loops (`TcpServer._send_rows`, `UdpClient._send_rows`,
  `SignalkServer._send_rows`) and the repeat-pass loop of `TcpServer.__init__`
  / `UdpClient.__init__`.

Modelling conventions:
* A CSV row (a Python dict produced by `csv.DictReader`) is modelled by `Row`;
  an absent key is `none`.  Only the three keys the core reads are modelled.
* Python exceptions are modelled by `Except PyErr`; `binascii.Error` is a
  subclass of `ValueError` and is therefore mapped to `PyErr.valueError`.
* Numbers produced by `float(...)` are modelled exactly by `PyFloat`, an
  integer numerator with a power-of-ten denominator (`num / 10 ^ exp`).
  The decimal log timestamps the claims exercise are short enough that
  CPython float arithmetic is sign- and zero-exact for them, which is all
  the replay logic observes; `PyFloat.toRat` maps the representation to `ℚ`
  and the `PyFloat.toRat_sub` / `PyFloat.isNeg_iff` / `PyFloat.isZero_iff`
  lemmas below connect the implemented operations to rational arithmetic.
* Python string operations (`strip`, `lower`, `replace`, `endswith`,
  `split`, the `in` substring test) are modelled by structurally recursive
  functions on `List Char` so that every definition evaluates by kernel
  reduction.
* CPython's `time.sleep` raises `ValueError` when its argument is negative;
  the sleep performed by `MessageReader.__next__` is modelled by the
  `sleepReq` field of a yielded row and the negative case by
  `PyErr.valueError`.
* `.encode()` (UTF-8 encoding of the formatted `str`) is modelled as the
  identity: all formatter outputs here are ASCII, so byte-level equality
  coincides with string equality.
-/

/-- Python exception classes that can escape the modelled code. -/
inductive PyErr where
  | keyError
  | valueError
  | indexError
  | notImplementedError
deriving DecidableEq

/-- A row produced by `csv.DictReader`: the three fields the replay core
reads, each `none` when the column is absent from the row. -/
structure Row where
  received_at : Option String
  protocol : Option String
  raw_data : Option String
deriving DecidableEq

/-- Diagnostics printed to stderr by `MessageReader.__next__`. -/
inductive Diag where
  | badRow (r : Row)
  | badTimestamp (s : String)
deriving DecidableEq

/-! ### Exact values of Python floats

`PyFloat` represents the exact rational `num / 10 ^ exp`.  The representation
is not normalised; all operations are plain `Int`/`Nat` arithmetic, so every
definition below evaluates by kernel reduction. -/

/-- Exact value of a Python float arising from parsing a decimal literal,
as the rational `num / 10 ^ exp`. -/
structure PyFloat where
  num : Int
  exp : Nat
deriving DecidableEq

/-- The rational value a `PyFloat` denotes. -/
def PyFloat.toRat (a : PyFloat) : ℚ :=
  (a.num : ℚ) / (10 : ℚ) ^ a.exp

/-- Subtraction, by shifting both operands to a common denominator. -/
def PyFloat.sub (a b : PyFloat) : PyFloat :=
  let m := max a.exp b.exp
  ⟨a.num * (10 : Int) ^ (m - a.exp) - b.num * (10 : Int) ^ (m - b.exp), m⟩

/-- Division by 1000 (`/ 1000` on the parsed timestamp). -/
def PyFloat.div1000 (a : PyFloat) : PyFloat :=
  ⟨a.num, a.exp + 3⟩

/-- Strict order test (`a < b`). -/
def PyFloat.blt (a b : PyFloat) : Bool :=
  let m := max a.exp b.exp
  a.num * (10 : Int) ^ (m - a.exp) < b.num * (10 : Int) ^ (m - b.exp)

/-- The value is negative (`a < 0`). -/
def PyFloat.isNeg (a : PyFloat) : Bool :=
  a.num < 0

/-- The value is zero; Python float truthiness: `0.0` (and `-0.0`) are the
only falsy floats. -/
def PyFloat.isZero (a : PyFloat) : Bool :=
  a.num = 0

/-- `math.floor`, as used by `datetime.fromtimestamp` to split a timestamp
into whole seconds and a fractional part. -/
def PyFloat.floor (a : PyFloat) : Int :=
  Int.fdiv a.num ((10 : Int) ^ a.exp)

theorem PyFloat.toRat_sub (a b : PyFloat) :
    (a.sub b).toRat = a.toRat - b.toRat := by
  unfold PyFloat.sub PyFloat.toRat
  have e1 : (10 : ℚ) ^ max a.exp b.exp =
      (10 : ℚ) ^ a.exp * (10 : ℚ) ^ (max a.exp b.exp - a.exp) := by
    rw [← pow_add]
    congr 1
    omega
  have e2 : (10 : ℚ) ^ max a.exp b.exp =
      (10 : ℚ) ^ b.exp * (10 : ℚ) ^ (max a.exp b.exp - b.exp) := by
    rw [← pow_add]
    congr 1
    omega
  push_cast
  rw [sub_div]
  congr 1
  · rw [e1]
    exact mul_div_mul_right _ _ (by positivity)
  · rw [e2]
    exact mul_div_mul_right _ _ (by positivity)

theorem PyFloat.isNeg_iff (a : PyFloat) : a.isNeg = true ↔ a.toRat < 0 := by
  unfold PyFloat.isNeg PyFloat.toRat
  rw [decide_eq_true_iff]
  constructor
  · intro h
    apply div_neg_of_neg_of_pos _ (by positivity)
    exact_mod_cast h
  · intro h
    by_contra hn
    push_neg at hn
    have : (0 : ℚ) ≤ (a.num : ℚ) / (10 : ℚ) ^ a.exp := by
      apply div_nonneg _ (by positivity)
      exact_mod_cast hn
    linarith

theorem PyFloat.isZero_iff (a : PyFloat) : a.isZero = true ↔ a.toRat = 0 := by
  unfold PyFloat.isZero PyFloat.toRat
  rw [decide_eq_true_iff, div_eq_zero_iff]
  constructor
  · intro h
    left
    exact_mod_cast h
  · intro h
    rcases h with h | h
    · exact_mod_cast h
    · exact absurd h (by positivity)

/-! ### Python string primitives, modelled on `List Char` -/

/-- Python whitespace characters relevant to `str.strip()` / `str.split()`
(ASCII subset; the log format is ASCII). -/
def isWs (c : Char) : Bool :=
  c = ' ' ∨ c = '\t' ∨ c = '\n' ∨ c = '\r' ∨ c = '\x0b' ∨ c = '\x0c'

/-- Python `str.strip()` (ASCII whitespace). -/
def pyStrip (s : List Char) : List Char :=
  ((s.dropWhile isWs).reverse.dropWhile isWs).reverse

/-- Python `str.lower()` (ASCII subset; protocol tags in the log are ASCII). -/
def pyLower (s : List Char) : List Char :=
  s.map fun c => if 'A' ≤ c ∧ c ≤ 'Z' then Char.ofNat (c.toNat + 32) else c

/-- Python `needle in hay` substring test. -/
def containsSub (needle : List Char) : List Char → Bool
  | [] => needle.isEmpty
  | c :: cs => needle.isPrefixOf (c :: cs) || containsSub needle cs

/-- Python `s.endswith(pat)`. -/
def endsWithTok (pat s : List Char) : Bool :=
  pat.reverse.isPrefixOf s.reverse

/-- If `pat` is a prefix of `s`, return the remainder of `s`. -/
def dropPat? (pat s : List Char) : Option (List Char) :=
  match pat, s with
  | [], rest => some rest
  | _ :: _, [] => none
  | p :: ps, c :: cs => if p = c then dropPat? ps cs else none

/-- Fuelled worker for `pyReplace` (fuel bounds the number of examined
positions, so the recursion is structural and kernel-reducible). -/
def replaceAllAux (pat rep : List Char) : Nat → List Char → List Char
  | 0, s => s
  | _ + 1, [] => []
  | fuel + 1, c :: cs =>
    match dropPat? pat (c :: cs) with
    | some rest => rep ++ replaceAllAux pat rep fuel rest
    | none => c :: replaceAllAux pat rep fuel cs

/-- Python `s.replace(pat, rep)`: replace every non-overlapping occurrence,
left to right (for non-empty `pat`). -/
def pyReplace (pat rep s : List Char) : List Char :=
  replaceAllAux pat rep s.length s

/-- Worker for `pySplitWs`, accumulating the current token reversed. -/
def splitWsAux : List Char → List Char → List (List Char)
  | [], acc => if acc.isEmpty then [] else [acc.reverse]
  | c :: cs, acc =>
    if isWs c then
      if acc.isEmpty then splitWsAux cs [] else acc.reverse :: splitWsAux cs []
    else splitWsAux cs (c :: acc)

/-- Python `s.split()` with no argument: split on runs of whitespace,
discarding empty tokens. -/
def pySplitWs (s : List Char) : List (List Char) :=
  splitWsAux s []

/-- Worker for `splitOnChar`, accumulating the current part reversed. -/
def splitOnCharAux (sep : Char) : List Char → List Char → List (List Char)
  | [], acc => [acc.reverse]
  | c :: cs, acc =>
    if c = sep then acc.reverse :: splitOnCharAux sep cs []
    else splitOnCharAux sep cs (c :: acc)

/-- Split on every occurrence of `sep`, keeping empty parts. -/
def splitOnChar (sep : Char) (s : List Char) : List (List Char) :=
  splitOnCharAux sep s []

/-! ### Python `float()` on decimal literals -/

/-- Value of a list of decimal digits. -/
def digitsVal (l : List Char) : Nat :=
  l.foldl (fun a c => a * 10 + (c.toNat - 48)) 0

/-- All characters are decimal digits. -/
def allDigits (l : List Char) : Bool :=
  l.all Char.isDigit

/-- Mantissa of a Python float literal: digits with at most one `.`, at
least one digit in total.  Returns the digit value together with the
number of fractional digits. -/
def mantissaVal? (l : List Char) : Option (Nat × Nat) :=
  match splitOnChar '.' l with
  | [ip] =>
    if (!ip.isEmpty) && allDigits ip then some (digitsVal ip, 0) else none
  | [ip, fp] =>
    if ((!ip.isEmpty) || (!fp.isEmpty)) && allDigits ip && allDigits fp then
      some (digitsVal ip * 10 ^ fp.length + digitsVal fp, fp.length)
    else none
  | _ => none

/-- Optionally signed decimal exponent. -/
def expVal? (l : List Char) : Option Int :=
  match l with
  | '+' :: rest =>
    if (!rest.isEmpty) && allDigits rest then some (digitsVal rest : Int) else none
  | '-' :: rest =>
    if (!rest.isEmpty) && allDigits rest then some (-(digitsVal rest : Int)) else none
  | _ =>
    if (!l.isEmpty) && allDigits l then some (digitsVal l : Int) else none

/-- Apply an exponent to an unsigned mantissa, with the given sign. -/
def applyExp (neg : Bool) (mant : Nat × Nat) (e : Int) : PyFloat :=
  let base : Int := if neg then -(mant.1 : Int) else (mant.1 : Int)
  if 0 ≤ e then ⟨base * (10 : Int) ^ e.toNat, mant.2⟩
  else ⟨base, mant.2 + (-e).toNat⟩

/-- Python `float(s)` on finite decimal literals: optional surrounding
whitespace, optional sign, decimal mantissa, optional `e`/`E` exponent.
The exotic forms (`inf`, `nan`, digit underscores) accepted by CPython are
outside the log values the specification and claims exercise and yield
`none` here.  The result is the exact decimal value; CPython rounds it to
binary, which agrees on sign and on comparison with zero. -/
def pyFloat? (s : String) : Option PyFloat :=
  let t := pyStrip s.data
  let sgnRest : Bool × List Char :=
    match t with
    | '-' :: rest => (true, rest)
    | '+' :: rest => (false, rest)
    | _ => (false, t)
  let low := sgnRest.2.map fun c => if c = 'E' then 'e' else c
  match splitOnChar 'e' low with
  | [m] => (mantissaVal? m).map fun mv => applyExp sgnRest.1 mv 0
  | [m, e] =>
    match mantissaVal? m, expVal? e with
    | some mv, some ev => some (applyExp sgnRest.1 mv ev)
    | _, _ => none
  | _ => none

/-! ### `MessageReader.__next__` -/

/-- A row yielded by `MessageReader.__next__`, together with the argument of
the `time.sleep` call performed before yielding it (`none` when no sleep
call was made). -/
structure Yield where
  sleepReq : Option PyFloat
  row : Row
deriving DecidableEq

/-- One round of the `while True` loop body of `MessageReader.__next__`
(vdrplayer2.py lines 115-131) applied to the next source row `r`, given the
current pacing clock `st` (the `self.timestamp` attribute, `none` for
Python `None`):

* a row with neither a `received_at` nor a `protocol` key prints a
  `Bad row` diagnostic and is skipped (`continue`);
* `row["protocol"]` is then read (`KeyError` when absent) and the row is
  silently skipped unless the lower-cased value contains `message_type`;
* `row["received_at"]` is read (`KeyError` when absent) and parsed with
  `float`; on `ValueError` a `Bad timestamp` diagnostic is printed and the
  row is returned with no sleep and no clock update;
* otherwise, when the clock is truthy (set and nonzero — `0.0` is falsy in
  Python), `time.sleep(timestamp - self.timestamp)` runs, raising
  `ValueError` when the difference is negative; then the clock is updated
  and the row returned.

The result is `(new clock, yielded row if any, diagnostic if any)`. -/
def MessageReader.step (message_type : String) (st : Option PyFloat) (r : Row) :
    Except PyErr (Option PyFloat × Option Yield × Option Diag) :=
  match r.received_at, r.protocol with
  | none, none => .ok (st, none, some (Diag.badRow r))
  | _, _ =>
    match r.protocol with
    | none => .error .keyError
    | some p =>
      if containsSub message_type.data (pyLower p.data) then
        match r.received_at with
        | none => .error .keyError
        | some s =>
          match pyFloat? s with
          | none => .ok (st, some ⟨none, r⟩, some (Diag.badTimestamp s))
          | some ms =>
            let t := ms.div1000
            match st with
            | none => .ok (some t, some ⟨none, r⟩, none)
            | some prev =>
              if prev.isZero then .ok (some t, some ⟨none, r⟩, none)
              else if (t.sub prev).isNeg then .error .valueError
              else .ok (some t, some ⟨some (t.sub prev), r⟩, none)
      else .ok (st, none, none)

/-- Drain a whole pass of `MessageReader` over the listed source rows:
repeated `__next__` calls until `StopIteration`, collecting the yielded
rows in order.  An exception escaping `__next__` aborts the pass. -/
def MessageReader.run (message_type : String) :
    Option PyFloat → List Row → Except PyErr (Option PyFloat × List Yield)
  | st, [] => .ok (st, [])
  | st, r :: rs =>
    match MessageReader.step message_type st r with
    | .error e => .error e
    | .ok (st', y?, _) =>
      match MessageReader.run message_type st' rs with
      | .error e => .error e
      | .ok (st2, ys) =>
        .ok (st2, match y? with | some y => y :: ys | none => ys)

/-! ### Hex and decimal formatting helpers -/

/-- Value of a hexadecimal digit character, if it is one. -/
def hexVal? (c : Char) : Option Nat :=
  if '0' ≤ c ∧ c ≤ '9' then some (c.toNat - 48)
  else if 'a' ≤ c ∧ c ≤ 'f' then some (c.toNat - 87)
  else if 'A' ≤ c ∧ c ≤ 'F' then some (c.toNat - 55)
  else none

/-- `binascii.unhexlify` on a spaceless string: an even number of hex
digits, two per output byte.  `none` models `binascii.Error` (a subclass of
`ValueError`). -/
def unhexlify? : List Char → Option (List Nat)
  | [] => some []
  | [_] => none
  | a :: b :: rest =>
    match hexVal? a, hexVal? b, unhexlify? rest with
    | some hi, some lo, some tail => some ((hi * 16 + lo) :: tail)
    | _, _, _ => none

/-- Python `int(tok, 16)` on a plain unsigned hex token (the only shape a
payload-length byte takes in the log); anything else models `ValueError`. -/
def parseHexNat? (l : List Char) : Option Nat :=
  if l.isEmpty then none
  else
    l.foldl (fun acc? c =>
      match acc?, hexVal? c with
      | some acc, some v => some (acc * 16 + v)
      | _, _ => none) (some 0)

/-- Upper-case hex digit of a value below 16. -/
def hexDigit (n : Nat) : Char :=
  if n < 10 then Char.ofNat (48 + n) else Char.ofNat (55 + n)

/-- Fuelled most-significant-first hex digit expansion. -/
def natToHexAux : Nat → Nat → List Char
  | 0, _ => []
  | _ + 1, 0 => []
  | fuel + 1, n => natToHexAux fuel (n / 16) ++ [hexDigit (n % 16)]

/-- Python `f"{n:X}"`: upper-case hex, no padding. -/
def natToHex (n : Nat) : String :=
  if n = 0 then "0" else ⟨natToHexAux (n + 1) n⟩

/-- Fuelled most-significant-first decimal digit expansion. -/
def natToDecAux : Nat → Nat → List Char
  | 0, _ => []
  | _ + 1, 0 => []
  | fuel + 1, n => natToDecAux fuel (n / 10) ++ [Char.ofNat (48 + n % 10)]

/-- Decimal rendering of a `Nat`. -/
def natToDec (n : Nat) : String :=
  if n = 0 then "0" else ⟨natToDecAux (n + 1) n⟩

/-- Zero-pad on the left to width `w` (Python `f"{...:0wd}"` / `f"{...:0wX}"`). -/
def pad0 (w : Nat) (s : String) : String :=
  ⟨List.replicate (w - s.length) '0' ++ s.data⟩

/-! ### `MsgFormat` -/

/-- `format_0183` (vdrplayer2.py lines 143-150): missing `raw_data` yields
`""`; a line ending in the logged `<0D><0A>` escape token has every
occurrence of the token replaced by a real CR-LF; otherwise the line passes
through unchanged. -/
def MsgFormat.format_0183 (r : Row) : String :=
  match r.raw_data with
  | none => ""
  | some line =>
    if endsWithTok "<0D><0A>".data line.data then
      ⟨pyReplace "<0D><0A>".data ['\r', '\n'] line.data⟩
    else line

/-- `format_signalk` (vdrplayer2.py lines 152-153): `raw_data` unchanged,
`""` when the key is missing. -/
def MsgFormat.format_signalk (r : Row) : String :=
  match r.raw_data with
  | none => ""
  | some d => d

/-- Bits 0-1 of identifier byte 5 (vdrplayer2.py line 166). -/
def rdp_of (b5 : Nat) : Nat :=
  b5 &&& 0b011

/-- Priority as the code computes it (vdrplayer2.py line 167):
`bytes_[5] & 0b011100 >> 2`.  Python's `>>` binds tighter than `&`, so this
is `bytes_[5] & (0b011100 >> 2) = bytes_[5] & 7`, not
`(bytes_[5] & 0b011100) >> 2`. -/
def prio_of (b5 : Nat) : Nat :=
  b5 &&& (0b011100 >>> 2)

/-- PGN computation (vdrplayer2.py lines 168-171): PDU1 when `pf < 240`
(the `ps` byte is replaced by `0`), PDU2 otherwise. -/
def pgn_of (ps pf rdp : Nat) : Nat :=
  if pf < 240 then (rdp <<< 16) + (pf <<< 8) + 0
  else (rdp <<< 16) + (pf <<< 8) + ps

/-- Whole seconds of a `datetime` out of `datetime.fromtimestamp(when, utc)`
range: `datetime` covers years 1..9999, i.e. timestamps in
`[-62135596800, 253402300800)`.  The code maps the resulting exception to
`ValueError` (its own re-raise catches `OSError`; direct `ValueError` from
`datetime` propagates as `ValueError` as well). -/
def tsOutOfRange (when : PyFloat) : Bool :=
  when.blt ⟨-62135596800, 0⟩ || !when.blt ⟨253402300800, 0⟩

/-- `format_2000` (vdrplayer2.py lines 155-188): Actisense ASCII encoding.
Returns `""` when the row has neither `received_at` nor `raw_data`;
otherwise unhexes `raw_data` (spaces removed), takes `ps`, `pf` and byte 5
from the identifier bytes, derives `rdp`/`prio`/`pgn`, renders the UTC
time of day of the timestamp, reads the payload length at whitespace token
12 and concatenates that many following tokens, and assembles
`A<hhmmss>.<mmm> <ps><pf><prio> <pgn> <payload>\r\n`. -/
def MsgFormat.format_2000 (r : Row) : Except PyErr String :=
  match r.received_at, r.raw_data with
  | none, none => .ok ""
  | _, _ =>
    match r.raw_data with
    | none => .error .keyError
    | some data =>
      match unhexlify? ((pyStrip data.data).filter fun c => c ≠ ' ') with
      | none => .error .valueError
      | some bytes_ =>
        match bytes_.get? 3, bytes_.get? 4, bytes_.get? 5 with
        | some ps, some pf, some b5 =>
          let rdp := rdp_of b5
          let prio := prio_of b5
          let pgn := pgn_of ps pf rdp
          match r.received_at with
          | none => .error .keyError
          | some ms =>
            match pyFloat? ms with
            | none => .error .valueError
            | some v =>
              let when := v.div1000
              if tsOutOfRange when then .error .valueError
              else
                let secs : Int := when.floor
                let secOfDay : Nat := (secs.emod 86400).toNat
                let hour := secOfDay / 3600
                let minute := secOfDay % 3600 / 60
                let second := secOfDay % 60
                let micro : Nat :=
                  (Int.fdiv ((when.num - secs * (10 : Int) ^ when.exp) * 1000000)
                    ((10 : Int) ^ when.exp)).toNat
                let toks := pySplitWs data.data
                match toks.get? 12 with
                | none => .error .indexError
                | some szTok =>
                  match parseHexNat? szTok with
                  | none => .error .valueError
                  | some payload_size =>
                    let payload : List Char :=
                      ((toks.drop 13).take payload_size).foldl
                        (fun acc w => acc ++ w) []
                    .ok ("A" ++ pad0 2 (natToDec hour) ++ pad0 2 (natToDec minute)
                      ++ pad0 2 (natToDec second) ++ "." ++ pad0 3 (natToDec (micro / 1000))
                      ++ " " ++ pad0 2 (natToHex ps) ++ pad0 2 (natToHex pf)
                      ++ natToHex prio ++ " " ++ natToHex pgn ++ " "
                      ++ String.mk payload ++ "\r\n")
        | _, _, _ => .error .indexError

/-- `MsgFormat.format` (vdrplayer2.py lines 140-197): dispatch on the
message type chosen at start-up; an unknown type raises
`NotImplementedError`.  The final `.encode()` is the identity here (ASCII
outputs). -/
def MsgFormat.format (msg_type : String) (r : Row) : Except PyErr String :=
  if msg_type = "0183" then .ok (MsgFormat.format_0183 r)
  else if msg_type = "signalk" then .ok (MsgFormat.format_signalk r)
  else if msg_type = "2000" then MsgFormat.format_2000 r
  else .error .notImplementedError

/-! ### Transports -/

/-- Common shape of `TcpServer._send_rows` (lines 235-244),
`UdpClient._send_rows` (lines 262-273) and `SignalkServer._send_rows`
(lines 299-312): iterate the `MessageReader`, format every yielded row and
send the bytes, returning the final pacing clock and the sent messages in
order.  Only the SignalK variant wraps its send in
`try: ... except ValueError:` — with `catchValueError = true` a formatter
`ValueError` is logged and the row skipped; otherwise any exception
escapes, aborting the pass.  An exception raised by `__next__` itself
(during the `for row in self.rows` iteration) is outside the SignalK `try`
block and always escapes. -/
def sendRowsAux (catchValueError : Bool) (mt : String) :
    Option PyFloat → List Row → Except PyErr (Option PyFloat × List String)
  | st, [] => .ok (st, [])
  | st, r :: rs =>
    match MessageReader.step mt st r with
    | .error e => .error e
    | .ok (st', y?, _) =>
      match y? with
      | none => sendRowsAux catchValueError mt st' rs
      | some y =>
        match MsgFormat.format mt y.row with
        | .error e =>
          if catchValueError then
            if e = PyErr.valueError then sendRowsAux catchValueError mt st' rs
            else .error e
          else .error e
        | .ok out =>
          match sendRowsAux catchValueError mt st' rs with
          | .error e => .error e
          | .ok (st2, outs) => .ok (st2, out :: outs)

/-- `TcpServer._send_rows`: no per-row exception handling. -/
def TcpServer.sendRows (mt : String) (st : Option PyFloat) (rows : List Row) :
    Except PyErr (Option PyFloat × List String) :=
  sendRowsAux false mt st rows

/-- `UdpClient._send_rows`: no per-row exception handling. -/
def UdpClient.sendRows (mt : String) (st : Option PyFloat) (rows : List Row) :
    Except PyErr (Option PyFloat × List String) :=
  sendRowsAux false mt st rows

/-- `SignalkServer._send_rows`: formatter `ValueError` is caught per row,
logged and the row skipped. -/
def SignalkServer.sendRows (mt : String) (st : Option PyFloat) (rows : List Row) :
    Except PyErr (Option PyFloat × List String) :=
  sendRowsAux true mt st rows

/-- The repeat-pass loop shared by `TcpServer.__init__` (lines 218-223),
`UdpClient.__init__` (lines 255-260) and `SignalkServer.handle_client`
(lines 286-294): for each of `count` passes, send all rows, then rewind
the log file (`args.logfile.seek(0)`, which restarts the row sequence) and
reset the pacing clock (`self.rows.timestamp = None`).  Returns the list
of sent messages of each pass. -/
def replayLoop (catchValueError : Bool) (mt : String) (rows : List Row) :
    Option PyFloat → Nat → Except PyErr (List (List String))
  | _, 0 => .ok []
  | st, count + 1 =>
    match sendRowsAux catchValueError mt st rows with
    | .error e => .error e
    | .ok (_, out) =>
      match replayLoop catchValueError mt rows none count with
      | .error e => .error e
      | .ok rest => .ok (out :: rest)

/-- `TcpServer.__init__`'s play loop: the `MessageReader` starts with
`timestamp = None`, and the clock is reset alongside every rewind. -/
def TcpServer.run (mt : String) (rows : List Row) (count : Nat) :
    Except PyErr (List (List String)) :=
  replayLoop false mt rows none count

/-- `UdpClient.__init__`'s play loop. -/
def UdpClient.run (mt : String) (rows : List Row) (count : Nat) :
    Except PyErr (List (List String)) :=
  replayLoop false mt rows none count

/-- `SignalkServer.handle_client`'s play loop. -/
def SignalkServer.handleClient (mt : String) (rows : List Row) (count : Nat) :
    Except PyErr (List (List String)) :=
  replayLoop true mt rows none count

/-! ### Helper lemmas about the paced row stream -/

/-- A loop round that yields nothing leaves the pacing clock unchanged. -/
theorem MessageReader.step_skip_state {mt : String} {st st' : Option PyFloat} {r : Row}
    {d : Option Diag} (h : MessageReader.step mt st r = .ok (st', none, d)) : st' = st := by
  obtain ⟨ra, p, rd⟩ := r
  rcases ra with _ | s <;> rcases p with _ | pr <;>
    simp only [MessageReader.step] at h <;>
    repeat' split at h
  all_goals simp_all

/-- A row yielded while the pacing clock is unset (`None`) or zero is
yielded without any sleep call. -/
theorem MessageReader.step_calm_yield {mt : String} {st st' : Option PyFloat} {r : Row}
    {y : Yield} {d : Option Diag}
    (hst : st = none ∨ ∃ p, st = some p ∧ p.isZero = true)
    (h : MessageReader.step mt st r = .ok (st', some y, d)) : y.sleepReq = none := by
  obtain ⟨ra, p, rd⟩ := r
  rcases hst with rfl | ⟨q, rfl, hq⟩ <;>
    rcases ra with _ | s <;> rcases p with _ | pr <;>
    simp only [MessageReader.step] at h <;>
    repeat' split at h
  all_goals simp_all
  all_goals rw [← h.2.1]
  all_goals first
  | rfl
  | exact h.1

/-- In a pass started with an unset pacing clock, the first yielded row is
delivered without any sleep call. -/
theorem MessageReader.run_head_calm {mt : String} {rows : List Row} {st2 : Option PyFloat}
    {ys : List Yield} (h : MessageReader.run mt none rows = .ok (st2, ys)) :
    ∀ y, ys.head? = some y → y.sleepReq = none := by
  induction rows generalizing st2 ys with
  | nil =>
    simp only [MessageReader.run] at h
    obtain ⟨rfl, rfl⟩ : none = st2 ∧ [] = ys := by
      simpa using h
    intro y hy
    simp at hy
  | cons r rs ih =>
    intro y hy
    simp only [MessageReader.run] at h
    cases hstep : MessageReader.step mt none r with
    | error e =>
      rw [hstep] at h
      simp at h
    | ok res =>
      obtain ⟨st', y?, d⟩ := res
      simp only [hstep] at h
      cases hrun : MessageReader.run mt st' rs with
      | error e =>
        simp only [hrun] at h
        exact absurd h (by simp)
      | ok pr2 =>
        obtain ⟨stf, ys'⟩ := pr2
        simp only [hrun, Except.ok.injEq, Prod.mk.injEq] at h
        obtain ⟨rfl, rfl⟩ := h
        cases y? with
        | some y0 =>
          simp at hy
          rw [← hy]
          exact MessageReader.step_calm_yield (Or.inl rfl) hstep
        | none =>
          have hs : st' = none := MessageReader.step_skip_state hstep
          subst hs
          exact ih hrun y hy

/-- Because the play loop resets the pacing clock to `None` after every
pass, each pass sends exactly what a pass started from a fresh clock
sends. -/
theorem replayLoop_replicate {c : Bool} {mt : String} {rows : List Row}
    {st : Option PyFloat} {out : List String}
    (h : sendRowsAux c mt none rows = .ok (st, out)) :
    ∀ n, replayLoop c mt rows none n = .ok (List.replicate n out) := by
  intro n
  induction n with
  | zero => rfl
  | succ k ih =>
    simp only [replayLoop]
    rw [h, ih]
    rfl

/-! ### Concrete rows used by witnesses and counterexamples -/

/-- An NMEA-2000 log row with identifier bytes `ps = 0x01`, `pf = 0xF0`,
`byte5 = 0b00000101`, payload length 2 and payload bytes `AB CD`, received
at epoch 0. -/
def row2000ex : Row :=
  ⟨some "0", some "2000", some "00 00 00 01 F0 05 00 00 00 00 00 00 02 AB CD"⟩

/-- An NMEA-2000 row whose `raw_data` is not decodable hex, so the encoder
raises `ValueError` (`binascii.Error`). -/
def row2000bad : Row :=
  ⟨some "0", some "2000", some "ZZ"⟩

/-- NMEA-0183 row received at 2000 ms. -/
def rowT2 : Row := ⟨some "2000", some "0183", some "$GPRMC,2*00"⟩

/-- NMEA-0183 row received at 1000 ms. -/
def rowT1 : Row := ⟨some "1000", some "0183", some "$GPRMC,1*00"⟩

/-- NMEA-0183 row received at 0 ms. -/
def rowT0 : Row := ⟨some "0", some "0183", some "$GPRMC,0*00"⟩

/-- NMEA-0183 row received at 2500 ms. -/
def rowT25 : Row := ⟨some "2500", some "0183", some "$GPGGA,2*11"⟩

/-- Row with neither `received_at` nor `protocol` column. -/
def rowNoKeys : Row := ⟨none, none, some "x"⟩

/-- Matching row whose `received_at` does not parse as a number. -/
def rowAbc : Row := ⟨some "abc", some "0183", some "$GPRMC,9*00"⟩

/-- SignalK row with payload `hello`. -/
def rowSk : Row := ⟨some "0", some "signalk", some "hello"⟩

/-- SignalK row lacking the `raw_data` column. -/
def rowSkEmpty : Row := ⟨some "1", some "signalk", none⟩

/-- NMEA-0183 row whose sentence ends in the logged `<0D><0A>` escape
token. -/
def rowNmea : Row :=
  ⟨some "1000", some "0183", some "$GPRMC,081836,A,3751.65,S,14507.36,E*68<0D><0A>"⟩

/-- NMEA-0183 row whose sentence carries no escape token. -/
def rowNmeaPlain : Row :=
  ⟨some "2500", some "0183", some "$GPRMC,081836,A*68"⟩

/-! ### Claim C1 -/

/-- C1: the claim states the encoder extracts the priority as
`(byte5 & 0b011100) >> 2`, giving digit 1 for `byte5 = 0b00000101`.  The
code (line 167) actually computes `byte5 & (0b011100 >> 2) = byte5 & 7`
because Python's `>>` binds tighter than `&`: at `byte5 = 0b00000101` the
code's priority is 5 and the encoded priority digit is `5`, where the
claim's formula yields 1.  This theorem evaluates the code at the failing
input (code bug: the claim matches the Actisense format the code's own
docstring cites). -/
theorem C1_prio_precedence :
    prio_of 0b00000101 = 5 ∧
    MsgFormat.format "2000" row2000ex = .ok "A000000.000 01F05 1F001 ABCD\r\n" ∧
    (0b00000101 &&& 0b011100) >>> 2 = 1 :=
  ⟨rfl, rfl, rfl⟩

/-! ### Claim C2 -/

/-- Splitting a sum into a bitwise or when the low part fits below the
shift. -/
theorem shiftLeft_add_lor {b : Nat} (a n : Nat) (hb : b < 2 ^ n) :
    (a <<< n) + b = (a <<< n) ||| b := by
  rw [Nat.shiftLeft_eq, Nat.mul_comm]
  exact Nat.mul_add_lt_is_or hb a

/-- C2: the PGN is `(rdp << 16) | (pf << 8)` for `pf < 240` (PDU1, `ps`
excluded) and `(rdp << 16) | (pf << 8) | ps` for `pf ≥ 240` (PDU2); for
`ps = 0x01`, `pf = 0xF0`, `rdp = 1` the encoded PGN field is the unpadded
hex string `1F001`.  (The code adds the addends; for byte-sized `ps`, `pf`
and a 2-bit `rdp` the fields are disjoint, so the sum equals the bitwise
or.) -/
theorem C2_pgn_computation :
    (∀ ps pf rdp : Nat, ps < 256 → pf < 256 → rdp < 4 →
      pgn_of ps pf rdp =
        if pf < 240 then (rdp <<< 16) ||| (pf <<< 8)
        else (rdp <<< 16) ||| (pf <<< 8) ||| ps) ∧
    natToHex (pgn_of 1 240 1) = "1F001" := by
  constructor
  · intro ps pf rdp hps hpf _
    have hpf16 : pf <<< 8 < 2 ^ 16 := by
      rw [Nat.shiftLeft_eq]
      norm_num
      omega
    unfold pgn_of
    split
    · rw [Nat.add_zero]
      exact shiftLeft_add_lor rdp 16 hpf16
    · have hps8 : ps < 2 ^ 8 := by norm_num [hps]
      have e1 : pf <<< 8 + ps = (pf <<< 8) ||| ps := shiftLeft_add_lor pf 8 hps8
      have hor16 : (pf <<< 8) ||| ps < 2 ^ 16 := by
        rw [← e1]
        rw [Nat.shiftLeft_eq] at hpf16 ⊢
        norm_num at hpf16 ⊢
        omega
      rw [Nat.add_assoc, e1, shiftLeft_add_lor rdp 16 hor16, Nat.lor_assoc]
  · rfl

/-- Witness for C2 at the claim's concrete PDU2 input. -/
theorem C2_pgn_computation_witness :
    (pgn_of 1 240 1 =
      if (240 : Nat) < 240 then (1 <<< 16) ||| (240 <<< 8)
      else (1 <<< 16) ||| (240 <<< 8) ||| 1) ∧
    natToHex (pgn_of 1 240 1) = "1F001" :=
  ⟨C2_pgn_computation.1 1 240 1 (by norm_num) (by norm_num) (by norm_num),
   C2_pgn_computation.2⟩

/-! ### Claim C3 -/

/-- C3 counterexample: the claim says a row whose timestamp is smaller than
its predecessor's causes a zero (not negative, not raising) delay; on the
concrete pass `2000 ms` then `1000 ms` the code passes the negative
difference straight to `time.sleep`, which raises `ValueError`, so the
stream errors out instead of yielding the second row after a zero delay. -/
theorem C3_counterexample :
    MessageReader.run "0183" none (rowT2 :: rowT1 :: []) = .error PyErr.valueError := rfl

/-- C3 amended: before a subsequent matching row with parsable timestamp,
when the previous recorded timestamp is set and nonzero, the stream passes
exactly `timestamp_n − timestamp_{n−1}` (unclamped) to `time.sleep`: a
nonnegative difference is slept and the row yielded, a negative difference
raises `ValueError` out of the stream.  (No `max(0, ·)` clamp exists; and
when the previous timestamp is unset or zero no delay is applied at
all — see C9/C10.) -/
theorem C3_pacing_delay (mt : String) (prev : PyFloat) (r : Row) (s pr : String)
    (v : PyFloat) (hra : r.received_at = some s) (hp : r.protocol = some pr)
    (hm : containsSub mt.data (pyLower pr.data) = true)
    (hv : pyFloat? s = some v) (hprev : prev.isZero = false) :
    MessageReader.step mt (some prev) r =
      if (v.div1000.sub prev).isNeg then .error PyErr.valueError
      else .ok (some v.div1000, some ⟨some (v.div1000.sub prev), r⟩, none) := by
  obtain ⟨ra, p, rd⟩ := r
  obtain rfl : ra = some s := hra
  obtain rfl : p = some pr := hp
  simp [MessageReader.step, hm, hv, hprev]

/-- Witness for C3: a backward step (2.0 s to 1.0 s) raises, a forward step
(1.0 s to 2.5 s) sleeps exactly 1.5 s. -/
theorem C3_pacing_delay_witness :
    MessageReader.step "0183" (some ⟨2000, 3⟩) rowT1 = .error PyErr.valueError ∧
    MessageReader.step "0183" (some ⟨1000, 3⟩) rowT25 =
      .ok (some ⟨2500, 3⟩, some ⟨some ⟨1500, 3⟩, rowT25⟩, none) :=
  ⟨(C3_pacing_delay "0183" ⟨2000, 3⟩ rowT1 "1000" "0183" ⟨1000, 0⟩
      rfl rfl rfl rfl rfl).trans rfl,
   (C3_pacing_delay "0183" ⟨1000, 3⟩ rowT25 "2500" "0183" ⟨2500, 0⟩
      rfl rfl rfl rfl rfl).trans rfl⟩

/-! ### Claim C4 -/

/-- C4 counterexample: the claim says every transport recovers row-level
encoding failures locally; on a pass containing an undecodable-hex
NMEA-2000 row followed by a good row, the TCP server's send loop (which
has no per-row exception handling) aborts with the encoder's `ValueError`
instead of skipping the bad row, while the WebSocket server's loop catches
it and sends the good row. -/
theorem C4_counterexample :
    TcpServer.sendRows "2000" none (row2000bad :: row2000ex :: []) =
      .error PyErr.valueError ∧
    SignalkServer.sendRows "2000" none (row2000bad :: row2000ex :: []) =
      .ok (some ⟨0, 3⟩, "A000000.000 01F05 1F001 ABCD\r\n" :: []) :=
  ⟨rfl, rfl⟩

/-- C4 amended: only the WebSocket transport recovers per-row encoder
`ValueError`s (logging and skipping the row); the TCP server and UDP
client have no per-row handler, so the same failure propagates and aborts
the pass. -/
theorem C4_per_row_recovery (mt : String) (st st' : Option PyFloat) (r : Row)
    (rs : List Row) (y : Yield) (d : Option Diag)
    (hstep : MessageReader.step mt st r = .ok (st', some y, d))
    (hfmt : MsgFormat.format mt y.row = .error PyErr.valueError) :
    SignalkServer.sendRows mt st (r :: rs) = SignalkServer.sendRows mt st' rs ∧
    TcpServer.sendRows mt st (r :: rs) = .error PyErr.valueError ∧
    UdpClient.sendRows mt st (r :: rs) = .error PyErr.valueError := by
  refine ⟨?_, ?_, ?_⟩ <;>
    simp [SignalkServer.sendRows, TcpServer.sendRows, UdpClient.sendRows,
      sendRowsAux, hstep, hfmt]

/-- Witness for C4 at the undecodable-hex row. -/
theorem C4_per_row_recovery_witness :
    SignalkServer.sendRows "2000" none (row2000bad :: []) =
      SignalkServer.sendRows "2000" (some ⟨0, 3⟩) [] ∧
    TcpServer.sendRows "2000" none (row2000bad :: []) = .error PyErr.valueError ∧
    UdpClient.sendRows "2000" none (row2000bad :: []) = .error PyErr.valueError :=
  C4_per_row_recovery "2000" none (some ⟨0, 3⟩) row2000bad []
    ⟨none, row2000bad⟩ none rfl rfl

/-! ### Claim C5 -/

/-- C5: a row with neither `received_at` nor `protocol` key is discarded
with a `Bad row` diagnostic — the loop round yields nothing, raises
nothing and leaves the clock unchanged, and the pass over the remaining
rows is exactly the pass without the malformed row. -/
theorem C5_malformed_discarded (mt : String) (st : Option PyFloat) (r : Row)
    (rs : List Row) (h1 : r.received_at = none) (h2 : r.protocol = none) :
    MessageReader.step mt st r = .ok (st, none, some (Diag.badRow r)) ∧
    MessageReader.run mt st (r :: rs) = MessageReader.run mt st rs := by
  obtain ⟨ra, p, rd⟩ := r
  obtain rfl : ra = none := h1
  obtain rfl : p = none := h2
  refine ⟨rfl, ?_⟩
  have hstep : MessageReader.step mt st ⟨none, none, rd⟩ =
      .ok (st, none, some (Diag.badRow ⟨none, none, rd⟩)) := rfl
  simp only [MessageReader.run, hstep]
  cases hrun : MessageReader.run mt st rs with
  | error e => rfl
  | ok pr2 =>
    obtain ⟨a, ys⟩ := pr2
    rfl

/-- Witness for C5 at a concrete keyless row. -/
theorem C5_malformed_discarded_witness :
    MessageReader.step "0183" none rowNoKeys =
      .ok (none, none, some (Diag.badRow rowNoKeys)) ∧
    MessageReader.run "0183" none (rowNoKeys :: rowT25 :: []) =
      MessageReader.run "0183" none (rowT25 :: []) :=
  C5_malformed_discarded "0183" none rowNoKeys (rowT25 :: []) rfl rfl

/-! ### Claim C6 -/

/-- C6: a matching row whose `received_at` does not parse is reported with
a `Bad timestamp` diagnostic and yielded with no sleep call and no clock
update; no exception escapes, and the stream continues with the remaining
rows unchanged. -/
theorem C6_bad_timestamp (mt : String) (st : Option PyFloat) (r : Row)
    (rs : List Row) (s pr : String) (hra : r.received_at = some s)
    (hp : r.protocol = some pr)
    (hm : containsSub mt.data (pyLower pr.data) = true)
    (hv : pyFloat? s = none) :
    MessageReader.step mt st r = .ok (st, some ⟨none, r⟩, some (Diag.badTimestamp s)) ∧
    MessageReader.run mt st (r :: rs) =
      (MessageReader.run mt st rs).map fun p2 => (p2.1, ⟨none, r⟩ :: p2.2) := by
  obtain ⟨ra, p, rd⟩ := r
  obtain rfl : ra = some s := hra
  obtain rfl : p = some pr := hp
  have hstep : MessageReader.step mt st ⟨some s, some pr, rd⟩ =
      .ok (st, some ⟨none, ⟨some s, some pr, rd⟩⟩, some (Diag.badTimestamp s)) := by
    simp [MessageReader.step, hm, hv]
  refine ⟨hstep, ?_⟩
  simp only [MessageReader.run, hstep]
  cases hrun : MessageReader.run mt st rs with
  | error e => rfl
  | ok pr2 =>
    obtain ⟨a, ys⟩ := pr2
    rfl

/-- Witness for C6 at `received_at = "abc"`. -/
theorem C6_bad_timestamp_witness :
    MessageReader.step "0183" none rowAbc =
      .ok (none, some ⟨none, rowAbc⟩, some (Diag.badTimestamp "abc")) ∧
    MessageReader.run "0183" none (rowAbc :: rowT25 :: []) =
      (MessageReader.run "0183" none (rowT25 :: [])).map
        fun p2 => (p2.1, ⟨none, rowAbc⟩ :: p2.2) :=
  C6_bad_timestamp "0183" none rowAbc (rowT25 :: []) "abc" "0183" rfl rfl rfl rfl

/-! ### Claim C7 -/

/-- C7 counterexample: the claim says the SignalK encoder appends CR-LF;
on the concrete row with `raw_data = "hello"` the code returns the bytes
of `"hello"` unchanged, which differ from `"hello" ++ "\r\n"`. -/
theorem C7_counterexample :
    MsgFormat.format "signalk" rowSk = .ok "hello" ∧
    ("hello" : String) ≠ "hello" ++ "\r\n" :=
  ⟨rfl, by decide⟩

/-- C7 amended: the SignalK encoder returns `raw_data` unchanged (no CR-LF
is appended), and a row missing `raw_data` yields an empty result. -/
theorem C7_signalk_passthrough :
    (∀ (r : Row) (d : String), r.raw_data = some d →
      MsgFormat.format "signalk" r = .ok d) ∧
    (∀ r : Row, r.raw_data = none → MsgFormat.format "signalk" r = .ok "") := by
  constructor
  · intro r d h
    obtain ⟨ra, p, rd⟩ := r
    obtain rfl : rd = some d := h
    rfl
  · intro r h
    obtain ⟨ra, p, rd⟩ := r
    obtain rfl : rd = none := h
    rfl

/-- Witness for C7 on a present and a missing payload. -/
theorem C7_signalk_passthrough_witness :
    MsgFormat.format "signalk" rowSk = .ok "hello" ∧
    MsgFormat.format "signalk" rowSkEmpty = .ok "" :=
  ⟨C7_signalk_passthrough.1 rowSk "hello" rfl,
   C7_signalk_passthrough.2 rowSkEmpty rfl⟩

/-! ### Claim C8 -/

/-- C8: the NMEA-0183 encoder translates the logged `<0D><0A>` escape
token to real CR-LF when the sentence ends with it, passes the sentence
through unchanged otherwise, yields an empty result when `raw_data` is
missing, and on the concrete `$GPRMC` sentence produces the raw sentence
with the token translated. -/
theorem C8_0183_encoding :
    (∀ (r : Row) (d : String), r.raw_data = some d →
      endsWithTok "<0D><0A>".data d.data = true →
      MsgFormat.format "0183" r =
        .ok ⟨pyReplace "<0D><0A>".data ['\r', '\n'] d.data⟩) ∧
    (∀ (r : Row) (d : String), r.raw_data = some d →
      endsWithTok "<0D><0A>".data d.data = false →
      MsgFormat.format "0183" r = .ok d) ∧
    (∀ r : Row, r.raw_data = none → MsgFormat.format "0183" r = .ok "") ∧
    MsgFormat.format "0183" rowNmea =
      .ok "$GPRMC,081836,A,3751.65,S,14507.36,E*68\r\n" := by
  refine ⟨?_, ?_, ?_, rfl⟩
  · intro r d h he
    obtain ⟨ra, p, rd⟩ := r
    obtain rfl : rd = some d := h
    simp [MsgFormat.format, MsgFormat.format_0183, he]
  · intro r d h he
    obtain ⟨ra, p, rd⟩ := r
    obtain rfl : rd = some d := h
    simp [MsgFormat.format, MsgFormat.format_0183, he]
  · intro r h
    obtain ⟨ra, p, rd⟩ := r
    obtain rfl : rd = none := h
    rfl

/-- Witness for C8 on a token-terminated and a plain sentence. -/
theorem C8_0183_encoding_witness :
    MsgFormat.format "0183" rowNmea =
      .ok ⟨pyReplace "<0D><0A>".data ['\r', '\n']
        "$GPRMC,081836,A,3751.65,S,14507.36,E*68<0D><0A>".data⟩ ∧
    MsgFormat.format "0183" rowNmeaPlain = .ok "$GPRMC,081836,A*68" :=
  ⟨C8_0183_encoding.1 rowNmea "$GPRMC,081836,A,3751.65,S,14507.36,E*68<0D><0A>" rfl rfl,
   C8_0183_encoding.2.1 rowNmeaPlain "$GPRMC,081836,A*68" rfl rfl⟩

/-! ### Claim C9 -/

/-- C9: every transport resets the pacing clock to unset alongside
rewinding the log between repeat passes, so every pass — including pass 2
and later — replays exactly like a pass started fresh (the play loop's
result is `count` copies of the fresh-clock pass), and the first row
yielded from an unset clock is delivered with no sleep call. -/
theorem C9_clock_reset :
    (∀ (mt : String) (rows : List Row) (st : Option PyFloat) (out : List String)
        (count : Nat),
      TcpServer.sendRows mt none rows = .ok (st, out) →
        TcpServer.run mt rows count = .ok (List.replicate count out) ∧
        UdpClient.run mt rows count = .ok (List.replicate count out)) ∧
    (∀ (mt : String) (rows : List Row) (st : Option PyFloat) (out : List String)
        (count : Nat),
      SignalkServer.sendRows mt none rows = .ok (st, out) →
        SignalkServer.handleClient mt rows count = .ok (List.replicate count out)) ∧
    (∀ (mt : String) (rows : List Row) (st2 : Option PyFloat) (ys : List Yield),
      MessageReader.run mt none rows = .ok (st2, ys) →
        ∀ y, ys.head? = some y → y.sleepReq = none) :=
  ⟨fun _ _ _ _ count h =>
    ⟨replayLoop_replicate h count, replayLoop_replicate h count⟩,
   fun _ _ _ _ count h => replayLoop_replicate h count,
   fun _ _ _ _ h => MessageReader.run_head_calm h⟩

/-- Witness for C9: two passes over a one-row log give two identical
sends, and the pass's first yield carries no sleep. -/
theorem C9_clock_reset_witness :
    TcpServer.run "0183" (rowT25 :: []) 2 =
      .ok (List.replicate 2 ("$GPGGA,2*11" :: [])) ∧
    (Yield.mk none rowT25).sleepReq = none :=
  ⟨(C9_clock_reset.1 "0183" (rowT25 :: []) (some ⟨2500, 3⟩)
      ("$GPGGA,2*11" :: []) 2 rfl).1,
   C9_clock_reset.2.2 "0183" (rowT25 :: []) (some ⟨2500, 3⟩)
      (⟨none, rowT25⟩ :: []) rfl ⟨none, rowT25⟩ rfl⟩

/-! ### Claim C10 -/

/-- C10 counterexample: the claim says every matching row whose
`received_at` parses to 0 ms sets the pacing clock to the falsy `0.0`; on
the concrete pass `2000 ms` then `0 ms`, processing the 0-ms row raises
`ValueError` inside `time.sleep(0.0 - 2.0)` before the clock assignment,
so the stream errors out and the clock is never set to `0.0`. -/
theorem C10_counterexample :
    MessageReader.run "0183" none (rowT2 :: rowT0 :: []) = .error PyErr.valueError := rfl

/-- C10 amended: every matching 0-ms row that is actually yielded (its own
pacing sleep did not raise) sets the clock to the falsy value `0.0`, and
from a zero clock every subsequently yielded row — whatever its
timestamp — is yielded with no sleep call, exactly like the first row of a
pass. -/
theorem C10_zero_anchor (mt : String) (st st' : Option PyFloat) (r : Row)
    (y : Yield) (d : Option Diag) (s : String) (v : PyFloat)
    (hra : r.received_at = some s) (hv : pyFloat? s = some v)
    (h0 : v.isZero = true)
    (hstep : MessageReader.step mt st r = .ok (st', some y, d)) :
    st' = some v.div1000 ∧ v.div1000.isZero = true ∧
    (∀ (r2 : Row) (st2 : Option PyFloat) (y2 : Yield) (d2 : Option Diag),
      MessageReader.step mt st' r2 = .ok (st2, some y2, d2) →
        y2.sleepReq = none) := by
  obtain ⟨ra, p, rd⟩ := r
  obtain rfl : ra = some s := hra
  have hst' : st' = some v.div1000 := by
    rcases p with _ | pr <;>
      simp only [MessageReader.step, hv] at hstep <;>
      repeat' split at hstep
    all_goals simp_all
  refine ⟨hst', h0, ?_⟩
  intro r2 st2 y2 d2 h2
  exact MessageReader.step_calm_yield
    (Or.inr ⟨v.div1000, hst', h0⟩) h2

/-- Witness for C10: the 0-ms row yields from a fresh clock and sets it to
zero, after which a 2.5-s row is still yielded with no sleep. -/
theorem C10_zero_anchor_witness :
    (some (⟨0, 3⟩ : PyFloat) : Option PyFloat) = some (PyFloat.div1000 ⟨0, 0⟩) ∧
    (PyFloat.div1000 ⟨0, 0⟩).isZero = true ∧
    (Yield.mk none rowT25).sleepReq = none :=
  have h := C10_zero_anchor "0183" none (some ⟨0, 3⟩) rowT0 ⟨none, rowT0⟩ none
    "0" ⟨0, 0⟩ rfl rfl rfl rfl
  ⟨h.1, h.2.1, h.2.2 rowT25 (some ⟨2500, 3⟩) ⟨none, rowT25⟩ none rfl⟩
